import Mathlib

/-!
Shallow embedding of the DoganStrateji confluence signal engine
(`src/core/cvd_calculator.py`, `src/core/signal_detector.py`,
`src/core/risk_manager.py`) together with proofs about the embedded
operations.  Money, prices and volumes are modelled as rationals;
timestamps are naturals (epoch milliseconds).  Mutable Python objects
become explicit state records and each method becomes a state-passing
function that follows the source line by line.
-/

namespace DoganStrateji

/-! ### CVD Aggregator (`src/core/cvd_calculator.py`) -/

/-- The mutable `current_candle_data` dict of `CVDCalculator`.
`open_time` and `close_time` are `Option` because the dict is created with
`None` in both slots before the first candle is initialized. -/
structure CandleData where
  open_time : Option ℕ
  close_time : Option ℕ
  delta : ℚ
  buy_volume : ℚ
  sell_volume : ℚ
  total_volume : ℚ
  trade_count : ℕ
deriving DecidableEq

/-- A closed-candle snapshot appended to `cvd_history`
(`CVDCalculator._close_current_candle`). -/
structure CandleRecord where
  timestamp : ℕ
  delta : ℚ
  cumulative_cvd : ℚ
  buy_volume : ℚ
  sell_volume : ℚ
  total_volume : ℚ
  trade_count : ℕ
  buy_ratio : ℚ
deriving DecidableEq

/-- An entry of the `cvd_pivots_high` / `cvd_pivots_low` deques. -/
structure CvdPivot where
  timestamp : ℕ
  cvd_value : ℚ
  index : ℕ
deriving DecidableEq

/-- The whole mutable state of a `CVDCalculator` instance. -/
structure CVDState where
  current_candle_delta : ℚ
  current_candle_start_time : Option ℕ
  cvd_history : List CandleRecord
  cumulative_cvd : ℚ
  current_candle_data : CandleData
  cvd_pivots_high : List CvdPivot
  cvd_pivots_low : List CvdPivot
deriving DecidableEq

/-- Bounded-deque append: `collections.deque` with a maximum length drops
elements from the left once the bound is exceeded. -/
def dequePush {α : Type} (maxlen : ℕ) (l : List α) (a : α) : List α :=
  if maxlen < (l ++ [a]).length then (l ++ [a]).drop ((l ++ [a]).length - maxlen)
  else l ++ [a]

/-- Modelled from the spec: `find_pivot_highs` lives in `utils/helpers.py`,
which is not under `src/`.  Per the spec (§4.1), an index `i` with
`half_window ≤ i < len − half_window` is a pivot high iff `series[i]` is the
strict maximum over the symmetric window of radius `half_window` around `i`. -/
def find_pivot_highs (series : List ℚ) (w : ℕ) : List ℕ :=
  (List.range series.length).filter fun i =>
    decide (w ≤ i) && decide (i + w < series.length) &&
      ((List.range (2 * w + 1)).all fun j =>
        let k := i - w + j
        decide (k = i) || decide (series.getD k 0 < series.getD i 0))

/-- Modelled from the spec: `find_pivot_lows` from `utils/helpers.py`
(not under `src/`), the strict-minimum mirror of `find_pivot_highs`. -/
def find_pivot_lows (series : List ℚ) (w : ℕ) : List ℕ :=
  (List.range series.length).filter fun i =>
    decide (w ≤ i) && decide (i + w < series.length) &&
      ((List.range (2 * w + 1)).all fun j =>
        let k := i - w + j
        decide (k = i) || decide (series.getD i 0 < series.getD k 0))

/-- Python negative indexing `l[-k]` (defined for `1 ≤ k ≤ l.length`). -/
def pyNegGet (l : List CandleRecord) (k : ℕ) : Option CandleRecord :=
  l.get? (l.length - k)

/-- `CVDCalculator._get_candle_start_time`: floor the millisecond timestamp
to seconds, floor to the timeframe boundary, convert back to milliseconds.
`m` is `timeframe_minutes`. -/
def get_candle_start_time (m : ℕ) (timestamp : ℕ) : ℕ :=
  let timestamp_seconds := timestamp / 1000
  let timeframe_seconds := m * 60
  timestamp_seconds / timeframe_seconds * timeframe_seconds * 1000

/-- `CVDCalculator._initialize_new_candle`. -/
def initialize_new_candle (m : ℕ) (candle_start_time : ℕ) (s : CVDState) : CVDState :=
  { s with
    current_candle_start_time := some candle_start_time
    current_candle_delta := 0
    current_candle_data :=
      { open_time := some candle_start_time
        close_time := some (candle_start_time + m * 60 * 1000 - 1)
        delta := 0
        buy_volume := 0
        sell_volume := 0
        total_volume := 0
        trade_count := 0 } }

/-- `CVDCalculator._update_pivot_detection`, with the pivot finder taken from
the spec-modelled `find_pivot_highs` / `find_pivot_lows`.  `lookback` is
`config.cvd_lookback`. -/
def update_pivot_detection (lookback : ℕ) (s : CVDState) : CVDState :=
  if s.cvd_history.length < lookback * 2 then s
  else
    let recent_cvd := (s.cvd_history.drop (s.cvd_history.length - 50)).map
      (fun c => c.cumulative_cvd)
    let step : List CvdPivot → ℕ → List CvdPivot := fun acc idx =>
      if idx < s.cvd_history.length then
        match pyNegGet s.cvd_history (recent_cvd.length - idx) with
        | some candle =>
            dequePush 50 acc
              ⟨candle.timestamp, candle.cumulative_cvd,
                s.cvd_history.length - (recent_cvd.length - idx)⟩
        | none => acc
      else acc
    { s with
      cvd_pivots_high := (find_pivot_highs recent_cvd (lookback / 2)).foldl step s.cvd_pivots_high
      cvd_pivots_low := (find_pivot_lows recent_cvd (lookback / 2)).foldl step s.cvd_pivots_low }

/-- The `candle_record` dict built by `CVDCalculator._close_current_candle`:
`delta` is taken from `current_candle_delta`, the volumes from
`current_candle_data`, and `cumulative_cvd` is the freshly bumped running
total. -/
def closeSnapshot (st : ℕ) (s : CVDState) : CandleRecord :=
  { timestamp := st
    delta := s.current_candle_delta
    cumulative_cvd := s.cumulative_cvd + s.current_candle_delta
    buy_volume := s.current_candle_data.buy_volume
    sell_volume := s.current_candle_data.sell_volume
    total_volume := s.current_candle_data.total_volume
    trade_count := s.current_candle_data.trade_count
    buy_ratio := s.current_candle_data.buy_volume /
      max s.current_candle_data.total_volume 1 }

/-- `CVDCalculator._close_current_candle`: add the candle delta to the
cumulative total, snapshot the candle into the bounded history, refresh
pivot detection.  The current-candle fields are not reset here (the caller
initializes a fresh candle afterwards). -/
def close_current_candle (lookback : ℕ) (s : CVDState) : CVDState :=
  match s.current_candle_start_time with
  | none => s
  | some st =>
      update_pivot_detection lookback
        { s with
          cumulative_cvd := s.cumulative_cvd + s.current_candle_delta
          cvd_history := dequePush 1000 s.cvd_history (closeSnapshot st s) }

/-- Lines 71–73 of `process_trade`: close the current candle when the trade
belongs to a different bucket. -/
def maybe_close_candle (lookback cst : ℕ) (s : CVDState) : CVDState :=
  match s.current_candle_start_time with
  | some st => if st ≠ cst then close_current_candle lookback s else s
  | none => s

/-- Lines 76–77 of `process_trade`: initialize a fresh bucket if the current
one does not match. -/
def bucket_init (m cst : ℕ) (s : CVDState) : CVDState :=
  if s.current_candle_start_time = some cst then s
  else initialize_new_candle m cst s

/-- Lines 79–95 of `process_trade`: classify the trade by aggressor and
update the current candle's counters and the running candle delta. -/
def apply_trade_counters (quantity : ℚ) (is_buyer_maker : Bool) (s : CVDState) : CVDState :=
  if is_buyer_maker then
    { s with
      current_candle_data := { s.current_candle_data with
        trade_count := s.current_candle_data.trade_count + 1
        total_volume := s.current_candle_data.total_volume + quantity
        sell_volume := s.current_candle_data.sell_volume + quantity
        delta := s.current_candle_data.delta - quantity }
      current_candle_delta := s.current_candle_delta + -quantity }
  else
    { s with
      current_candle_data := { s.current_candle_data with
        trade_count := s.current_candle_data.trade_count + 1
        total_volume := s.current_candle_data.total_volume + quantity
        buy_volume := s.current_candle_data.buy_volume + quantity
        delta := s.current_candle_data.delta + quantity }
      current_candle_delta := s.current_candle_delta + quantity }

/-- `CVDCalculator.process_trade` on a well-formed trade (all fields present):
close the current candle when the bucket changes, initialize the bucket if
needed, then apply the aggressor-classified quantity. -/
def process_trade_valid (m lookback : ℕ) (timestamp : ℕ) (quantity : ℚ)
    (is_buyer_maker : Bool) (s : CVDState) : CVDState :=
  apply_trade_counters quantity is_buyer_maker
    (bucket_init m (get_candle_start_time m timestamp)
      (maybe_close_candle lookback (get_candle_start_time m timestamp) s))

/-- The state set up by `CVDCalculator.__init__` / `reset`. -/
def initCVDState : CVDState :=
  { current_candle_delta := 0
    current_candle_start_time := none
    cvd_history := []
    cumulative_cvd := 0
    current_candle_data :=
      { open_time := none, close_time := none, delta := 0
        buy_volume := 0, sell_volume := 0, total_volume := 0, trade_count := 0 }
    cvd_pivots_high := []
    cvd_pivots_low := [] }

/-- Run a list of well-formed trades `(timestamp, quantity, is_buyer_maker)`
through the aggregator starting from the reset state. -/
def apply_trades (m lookback : ℕ) (ts : List (ℕ × ℚ × Bool)) : CVDState :=
  ts.foldl (fun s t => process_trade_valid m lookback t.1 t.2.1 t.2.2 s) initCVDState

/-- `CVDCalculator.get_current_cvd`. -/
def get_current_cvd (s : CVDState) : ℚ :=
  s.cumulative_cvd + s.current_candle_delta

/-- Return value of `CVDCalculator.get_current_candle_stats`. -/
structure CandleStats where
  delta : ℚ
  buy_volume : ℚ
  sell_volume : ℚ
  total_volume : ℚ
  buy_ratio : ℚ
  sell_ratio : ℚ
  trade_count : ℕ
  cumulative_cvd : ℚ
deriving DecidableEq

/-- `CVDCalculator.get_current_candle_stats`. -/
def get_current_candle_stats (s : CVDState) : CandleStats :=
  let total_volume := max s.current_candle_data.total_volume 1
  { delta := s.current_candle_delta
    buy_volume := s.current_candle_data.buy_volume
    sell_volume := s.current_candle_data.sell_volume
    total_volume := total_volume
    buy_ratio := s.current_candle_data.buy_volume / total_volume
    sell_ratio := s.current_candle_data.sell_volume / total_volume
    trade_count := s.current_candle_data.trade_count
    cumulative_cvd := get_current_cvd s }

/-- Python slice `l[-n:]`. -/
def lastN {α : Type} (n : ℕ) (l : List α) : List α :=
  l.drop (l.length - n)

/-- The two most recent elements `(l[-2], l[-1])` of a list, when present. -/
def last2 {α : Type} (l : List α) : Option (α × α) :=
  match l.reverse with
  | b :: a :: _ => some (a, b)
  | _ => none

/-- `CVDCalculator.get_pivot_highs`. -/
def get_pivot_highs (count : ℕ) (s : CVDState) : List CvdPivot :=
  lastN count s.cvd_pivots_high

/-- `CVDCalculator.get_pivot_lows`. -/
def get_pivot_lows (count : ℕ) (s : CVDState) : List CvdPivot :=
  lastN count s.cvd_pivots_low

/-- Body of `CVDCalculator.detect_cvd_divergence` after the pivot list of the
matching polarity has been fetched: require two pivots on each side, compare
the two most recent ones positionally. -/
def detect_divergence_core (price_pivots : List (ℕ × ℚ)) (cvd_pivots : List CvdPivot)
    (bearish : Bool) : Bool :=
  if price_pivots.length < 2 ∨ cvd_pivots.length < 2 then false
  else
    match last2 price_pivots, last2 cvd_pivots with
    | some (p1, p2), some (c1, c2) =>
        if bearish then decide (p1.2 < p2.2) && decide (c2.cvd_value < c1.cvd_value)
        else decide (p2.2 < p1.2) && decide (c1.cvd_value < c2.cvd_value)
    | _, _ => false

/-- `CVDCalculator.detect_cvd_divergence`: `'bearish'` compares against the
last five pivot highs, anything else against the last five pivot lows. -/
def detect_cvd_divergence (s : CVDState) (price_pivots : List (ℕ × ℚ))
    (divergence_type : String) : Bool :=
  let cvd_pivots := if divergence_type = "bearish" then get_pivot_highs 5 s
                    else get_pivot_lows 5 s
  detect_divergence_core price_pivots cvd_pivots (divergence_type = "bearish")

/-! ### Raw trade events (`CVDCalculator.process_trade` with its handler) -/

/-- A trade event as received off the wire: every field may be missing. -/
structure RawTrade where
  price : Option ℚ
  quantity : Option ℚ
  timestamp : Option ℕ
  is_buyer_maker : Option Bool
deriving DecidableEq

/-- `CVDCalculator.process_trade` including the surrounding try/except.
The source reads `timestamp`, `quantity` and `is_buyer_maker` before touching
any state, so a missing one of those raises KeyError with the state intact;
the final debug log reads `trade_data['price']` after all state updates, so a
trade missing only `price` is fully applied before its KeyError is caught.
Returns the new state and whether the error handler ran; no exception escapes
in any case. -/
def process_trade_raw (m lookback : ℕ) (t : RawTrade) (s : CVDState) :
    CVDState × Bool :=
  match t.timestamp, t.quantity, t.is_buyer_maker with
  | some ts, some q, some bm =>
      let s' := process_trade_valid m lookback ts q bm s
      match t.price with
      | some _ => (s', false)
      | none => (s', true)
  | _, _, _ => (s, true)

/-! ### Theorems for C5 (candle bucketing) and C10 (stats denominator) -/

/-- C5: for a trade timestamp `t` (ms) and timeframe `T = m·60·1000` ms,
the assigned candle has `open_time = ⌊t/T⌋·T`, `close_time = open_time+T−1`
(so `close_time+1 = open_time+T`), and every timestamp `u` with
`open_time ≤ u < open_time+T` is bucketed to the same `open_time`. -/
theorem candle_bucketing (m t : ℕ) (s : CVDState) (hm : 0 < m) :
    get_candle_start_time m t = t / (m * 60 * 1000) * (m * 60 * 1000) ∧
    ((initialize_new_candle m (get_candle_start_time m t) s).current_candle_data.open_time =
        some (get_candle_start_time m t) ∧
      (initialize_new_candle m (get_candle_start_time m t) s).current_candle_data.close_time =
        some (get_candle_start_time m t + m * 60 * 1000 - 1) ∧
      (get_candle_start_time m t + m * 60 * 1000 - 1) + 1 =
        get_candle_start_time m t + m * 60 * 1000) ∧
    ∀ u : ℕ, get_candle_start_time m t ≤ u → u < get_candle_start_time m t + m * 60 * 1000 →
      get_candle_start_time m u = get_candle_start_time m t :=
  by
  have hT : 0 < m * 60 * 1000 := by positivity
  have key : ∀ x : ℕ, get_candle_start_time m x = x / (m * 60 * 1000) * (m * 60 * 1000) := by
    intro x
    show x / 1000 / (m * 60) * (m * 60) * 1000 = x / (m * 60 * 1000) * (m * 60 * 1000)
    have h1 : x / 1000 / (m * 60) = x / (1000 * (m * 60)) := Nat.div_div_eq_div_mul x 1000 (m * 60)
    have h2 : 1000 * (m * 60) = m * 60 * 1000 := by ring
    rw [h1, h2, Nat.mul_assoc]
  constructor
  · exact key t
  constructor
  · refine ⟨rfl, rfl, ?_⟩
    have : 1 ≤ m * 60 * 1000 := hT
    omega
  · intro u hu1 hu2
    rw [key u, key t]
    have hqu : u / (m * 60 * 1000) = t / (m * 60 * 1000) := by
      rw [key t] at hu1 hu2
      have hlo : t / (m * 60 * 1000) * (m * 60 * 1000) ≤ u := hu1
      have hhi : u < (t / (m * 60 * 1000) + 1) * (m * 60 * 1000) := by
        calc u < t / (m * 60 * 1000) * (m * 60 * 1000) + m * 60 * 1000 := hu2
        _ = (t / (m * 60 * 1000) + 1) * (m * 60 * 1000) := by ring
      exact Nat.div_eq_of_lt_le hlo hhi
    rw [hqu]

/-- C5 witness: the theorem applied at `m = 1`, `t = 90000`.  The candle for
`t = 90000` opens at `60000` and timestamp `119999` shares the bucket. -/
theorem candle_bucketing_witness :
    get_candle_start_time 1 90000 = 60000 ∧ get_candle_start_time 1 119999 = 60000 := by
  have h := candle_bucketing 1 90000 initCVDState (by decide)
  refine ⟨?_, ?_⟩
  · rw [h.1]
  · have h3 := h.2.2 119999 (by rw [h.1]; decide) (by rw [h.1]; decide)
    rw [h3, h.1]

/-- C10: a current candle with no processed trade (the reset state or any
freshly initialized candle) reports `total_volume = 1` and zero buy/sell
shares, and the denominator `max total_volume 1` used by
`get_current_candle_stats` is positive in every state. -/
theorem fresh_candle_stats :
    (∀ (m c : ℕ) (s : CVDState),
        (get_current_candle_stats (initialize_new_candle m c s)).total_volume = 1 ∧
        (get_current_candle_stats (initialize_new_candle m c s)).buy_ratio = 0 ∧
        (get_current_candle_stats (initialize_new_candle m c s)).sell_ratio = 0) ∧
    ((get_current_candle_stats initCVDState).total_volume = 1 ∧
      (get_current_candle_stats initCVDState).buy_ratio = 0 ∧
      (get_current_candle_stats initCVDState).sell_ratio = 0) ∧
    ∀ s : CVDState, 0 < max s.current_candle_data.total_volume 1 :=
  by
  refine ⟨?_, ⟨?_, ?_, ?_⟩, ?_⟩
  · intro m c s
    refine ⟨?_, ?_, ?_⟩ <;>
      simp [get_current_candle_stats, initialize_new_candle]
  · simp [get_current_candle_stats, initCVDState]
  · simp [get_current_candle_stats, initCVDState]
  · simp [get_current_candle_stats, initCVDState]
  · intro s
    have : (0 : ℚ) < 1 := by norm_num
    exact lt_of_lt_of_le this (le_max_right _ _)

/-! ### Theorems for C4 (divergence detection) -/

theorem last2_append_two {α : Type} (l : List α) (a b : α) :
    last2 (l ++ [a, b]) = some (a, b) := by
  simp [last2, List.reverse_append]

theorem lastN_append_two {α : Type} (l : List α) (a b : α) :
    lastN 5 (l ++ [a, b]) = l.drop (l.length + 2 - 5) ++ [a, b] := by
  unfold lastN
  have hlen : (l ++ [a, b]).length = l.length + 2 := by simp
  rw [hlen]
  exact List.drop_append_of_le_length (by omega)

theorem lastN_length {α : Type} (n : ℕ) (l : List α) :
    (lastN n l).length = l.length - (l.length - n) := by
  simp [lastN]

theorem detect_divergence_core_append (l1 : List (ℕ × ℚ)) (t1 t2 : ℕ) (p1 p2 : ℚ)
    (l2 : List CvdPivot) (c1 c2 : CvdPivot) (bearish : Bool) :
    detect_divergence_core (l1 ++ [(t1, p1), (t2, p2)]) (l2 ++ [c1, c2]) bearish =
      (if bearish then decide (p1 < p2) && decide (c2.cvd_value < c1.cvd_value)
       else decide (p2 < p1) && decide (c1.cvd_value < c2.cvd_value)) := by
  unfold detect_divergence_core
  rw [if_neg, last2_append_two, last2_append_two]
  · push_neg
    constructor <;> · simp

/-- C4: `detect_cvd_divergence` returns false whenever fewer than two price
pivots or fewer than two matching-polarity CVD pivots are available; with two
or more on each side it compares the two most recent of each sequence
positionally: bearish iff the later price pivot strictly exceeds the earlier
one and the later CVD pivot-high value is strictly below the earlier one,
bullish with both comparisons mirrored on the pivot lows. -/
theorem cvd_divergence_characterization :
    (∀ (s : CVDState) (pp : List (ℕ × ℚ)),
        (pp.length < 2 ∨ s.cvd_pivots_high.length < 2 →
          detect_cvd_divergence s pp "bearish" = false) ∧
        (pp.length < 2 ∨ s.cvd_pivots_low.length < 2 →
          detect_cvd_divergence s pp "bullish" = false)) ∧
    (∀ (s : CVDState) (l1 : List (ℕ × ℚ)) (t1 t2 : ℕ) (p1 p2 : ℚ)
        (l2 : List CvdPivot) (c1 c2 : CvdPivot),
        s.cvd_pivots_high = l2 ++ [c1, c2] →
        detect_cvd_divergence s (l1 ++ [(t1, p1), (t2, p2)]) "bearish" =
          (decide (p1 < p2) && decide (c2.cvd_value < c1.cvd_value))) ∧
    (∀ (s : CVDState) (l1 : List (ℕ × ℚ)) (t1 t2 : ℕ) (p1 p2 : ℚ)
        (l2 : List CvdPivot) (c1 c2 : CvdPivot),
        s.cvd_pivots_low = l2 ++ [c1, c2] →
        detect_cvd_divergence s (l1 ++ [(t1, p1), (t2, p2)]) "bullish" =
          (decide (p2 < p1) && decide (c1.cvd_value < c2.cvd_value))) := by
  refine ⟨?_, ?_, ?_⟩
  · intro s pp
    constructor
    · intro h
      unfold detect_cvd_divergence detect_divergence_core
      rw [if_pos rfl]
      rw [if_pos]
      rcases h with h | h
      · exact Or.inl h
      · right
        rw [get_pivot_highs, lastN_length]
        omega
    · intro h
      unfold detect_cvd_divergence detect_divergence_core
      rw [if_neg (by decide : ¬("bullish" : String) = "bearish")]
      rw [if_pos]
      rcases h with h | h
      · exact Or.inl h
      · right
        rw [get_pivot_lows, lastN_length]
        omega
  · intro s l1 t1 t2 p1 p2 l2 c1 c2 h
    unfold detect_cvd_divergence
    rw [if_pos rfl, get_pivot_highs, h, lastN_append_two,
      detect_divergence_core_append]
    rfl
  · intro s l1 t1 t2 p1 p2 l2 c1 c2 h
    unfold detect_cvd_divergence
    rw [if_neg (by decide : ¬("bullish" : String) = "bearish"), get_pivot_lows, h,
      lastN_append_two, detect_divergence_core_append]
    rfl

/-- State with CVD pivot highs `500, 300` (a lower high), as in the spec's
divergence example. -/
def divergenceDemoState : CVDState :=
  { initCVDState with cvd_pivots_high := [⟨0, 500, 0⟩, ⟨0, 300, 0⟩] }

/-- State with CVD pivot highs `300, 500` (the swapped order). -/
def divergenceDemoStateSwapped : CVDState :=
  { initCVDState with cvd_pivots_high := [⟨0, 300, 0⟩, ⟨0, 500, 0⟩] }

/-- C4 witness: with price pivots `100 → 110` and CVD pivot highs `500 → 300`
the bearish divergence fires; with the CVD order swapped it does not. -/
theorem cvd_divergence_characterization_witness :
    detect_cvd_divergence divergenceDemoState [(1, 100), (2, 110)] "bearish" = true ∧
    detect_cvd_divergence divergenceDemoStateSwapped [(1, 100), (2, 110)] "bearish" = false := by
  constructor
  · have h := cvd_divergence_characterization.2.1 divergenceDemoState [] 1 2 100 110
      [] ⟨0, 500, 0⟩ ⟨0, 300, 0⟩ rfl
    exact h.trans (by decide)
  · have h := cvd_divergence_characterization.2.1 divergenceDemoStateSwapped [] 1 2 100 110
      [] ⟨0, 300, 0⟩ ⟨0, 500, 0⟩ rfl
    exact h.trans (by decide)

/-! ### Theorems for C8 (malformed trade events) -/

/-- C8 as amended: a trade missing `timestamp`, `quantity` or
`is_buyer_maker` is reported as an error and leaves the state exactly
unchanged; a well-formed trade is processed without error; but a trade
missing only `price` is *fully applied* before its error is reported.  In
every case `process_trade_raw` returns normally (no exception escapes). -/
theorem malformed_trade_handling (m lookback : ℕ) (t : RawTrade) (s : CVDState) :
    (t.timestamp = none ∨ t.quantity = none ∨ t.is_buyer_maker = none →
      process_trade_raw m lookback t s = (s, true)) ∧
    (∀ ts q bm, t.timestamp = some ts → t.quantity = some q →
      t.is_buyer_maker = some bm → t.price = none →
      process_trade_raw m lookback t s = (process_trade_valid m lookback ts q bm s, true)) ∧
    (∀ ts q bm p, t.timestamp = some ts → t.quantity = some q →
      t.is_buyer_maker = some bm → t.price = some p →
      process_trade_raw m lookback t s = (process_trade_valid m lookback ts q bm s, false)) := by
  obtain ⟨pr, qu, ts, bm⟩ := t
  refine ⟨?_, ?_, ?_⟩
  · intro h
    cases ts <;> cases qu <;> cases bm <;> simp_all [process_trade_raw]
  · intro ts' q' bm' h1 h2 h3 h4
    simp_all [process_trade_raw]
  · intro ts' q' bm' p' h1 h2 h3 h4
    simp_all [process_trade_raw]

/-- C8 witness: a trade whose `timestamp` field is missing is rejected with
the state unchanged. -/
theorem malformed_trade_handling_witness :
    process_trade_raw 1 10
        { price := some 1, quantity := some 5, timestamp := none,
          is_buyer_maker := some false } initCVDState = (initCVDState, true) :=
  (malformed_trade_handling 1 10 _ initCVDState).1 (Or.inl rfl)

/-- The C1-claimed atomicity fails: a trade missing only the `price` field is
malformed, yet processing it both reports an error and mutates the state (the
fresh candle's trade count becomes 1). -/
theorem malformed_trade_mutates_state :
    (process_trade_raw 1 10
        { price := none, quantity := some 5, timestamp := some 0,
          is_buyer_maker := some false } initCVDState).2 = true ∧
    (process_trade_raw 1 10
        { price := none, quantity := some 5, timestamp := some 0,
          is_buyer_maker := some false } initCVDState).1 ≠ initCVDState := by
  constructor
  · rfl
  · have hcount : (process_trade_raw 1 10
        { price := none, quantity := some 5, timestamp := some 0,
          is_buyer_maker := some false }
        initCVDState).1.current_candle_data.trade_count = 1 := rfl
    intro heq
    rw [heq] at hcount
    simp [initCVDState] at hcount

/-! ### Theorems for C6 (CVD candle and cumulative invariants) -/

/-- The cumulative-CVD recurrence between consecutive closed candles. -/
def cumStep (a b : CandleRecord) : Prop :=
  b.cumulative_cvd = a.cumulative_cvd + b.delta

/-- Inductive invariant of the aggregator state maintained by
`process_trade`. -/
structure CVDInv (s : CVDState) : Prop where
  cur_delta : s.current_candle_data.delta =
    s.current_candle_data.buy_volume - s.current_candle_data.sell_volume
  cur_total : s.current_candle_data.total_volume =
    s.current_candle_data.buy_volume + s.current_candle_data.sell_volume
  delta_sync : s.current_candle_delta = s.current_candle_data.delta
  chain : List.Chain' cumStep s.cvd_history
  last_cum : ∀ r ∈ s.cvd_history.getLast?, r.cumulative_cvd = s.cumulative_cvd
  len_le : s.cvd_history.length ≤ 1000
  no_evict : s.cvd_history.length < 1000 →
    s.cumulative_cvd = (s.cvd_history.map (fun r => r.delta)).sum
  head_cum : s.cvd_history.length < 1000 →
    ∀ r ∈ s.cvd_history.head?, r.cumulative_cvd = r.delta

theorem update_pivot_detection_fields (lb : ℕ) (x : CVDState) :
    (update_pivot_detection lb x).current_candle_data = x.current_candle_data ∧
    (update_pivot_detection lb x).current_candle_delta = x.current_candle_delta ∧
    (update_pivot_detection lb x).current_candle_start_time = x.current_candle_start_time ∧
    (update_pivot_detection lb x).cvd_history = x.cvd_history ∧
    (update_pivot_detection lb x).cumulative_cvd = x.cumulative_cvd := by
  unfold update_pivot_detection
  split
  · exact ⟨rfl, rfl, rfl, rfl, rfl⟩
  · exact ⟨rfl, rfl, rfl, rfl, rfl⟩

theorem CVDInv_update_pivot (lb : ℕ) (x : CVDState) (h : CVDInv x) :
    CVDInv (update_pivot_detection lb x) := by
  obtain ⟨h1, h2, h3, h4, h5⟩ := update_pivot_detection_fields lb x
  refine ⟨?_, ?_, ?_, ?_, ?_, ?_, ?_, ?_⟩ <;>
    simp only [h1, h2, h3, h4, h5]
  · exact h.cur_delta
  · exact h.cur_total
  · exact h.delta_sync
  · exact h.chain
  · exact h.last_cum
  · exact h.len_le
  · exact h.no_evict
  · exact h.head_cum

theorem dequePush_cases {α : Type} (l : List α) (a : α) (h : l.length ≤ 1000) :
    (l.length < 1000 ∧ dequePush 1000 l a = l ++ [a]) ∨
    (l.length = 1000 ∧ dequePush 1000 l a = (l ++ [a]).tail) := by
  unfold dequePush
  rcases Nat.lt_or_ge l.length 1000 with h' | h'
  · left
    refine ⟨h', ?_⟩
    rw [if_neg]
    simp only [List.length_append, List.length_cons, List.length_nil]
    omega
  · have h1000 : l.length = 1000 := le_antisymm h h'
    right
    refine ⟨h1000, ?_⟩
    rw [if_pos]
    · have hd : (l ++ [a]).length - 1000 = 1 := by
        simp only [List.length_append, List.length_cons, List.length_nil]
        omega
      rw [hd, List.drop_one]
    · simp only [List.length_append, List.length_cons, List.length_nil]
      omega

theorem CVDInv_append (st : ℕ) (s : CVDState) (h : CVDInv s) :
    CVDInv { s with
      cumulative_cvd := s.cumulative_cvd + s.current_candle_delta
      cvd_history := dequePush 1000 s.cvd_history (closeSnapshot st s) } := by
  have hchain2 : List.Chain' cumStep (s.cvd_history ++ [closeSnapshot st s]) := by
    rw [List.chain'_append]
    refine ⟨h.chain, List.chain'_singleton _, ?_⟩
    intro x hx y hy
    simp only [List.head?_cons, Option.mem_def, Option.some.injEq] at hy
    subst hy
    show (closeSnapshot st s).cumulative_cvd = x.cumulative_cvd + (closeSnapshot st s).delta
    have hx' := h.last_cum x hx
    simp [closeSnapshot, hx']
  rcases dequePush_cases s.cvd_history (closeSnapshot st s) h.len_le with
    ⟨hlt, heq⟩ | ⟨hlen, heq⟩
  · refine ⟨h.cur_delta, h.cur_total, h.delta_sync, ?_, ?_, ?_, ?_, ?_⟩
    · show List.Chain' cumStep (dequePush 1000 s.cvd_history (closeSnapshot st s))
      rw [heq]; exact hchain2
    · show ∀ r ∈ (dequePush 1000 s.cvd_history (closeSnapshot st s)).getLast?,
        r.cumulative_cvd = s.cumulative_cvd + s.current_candle_delta
      rw [heq, List.getLast?_concat]
      intro r hr
      simp only [Option.mem_def, Option.some.injEq] at hr
      subst hr
      rfl
    · show (dequePush 1000 s.cvd_history (closeSnapshot st s)).length ≤ 1000
      rw [heq]
      simp only [List.length_append, List.length_cons, List.length_nil]
      omega
    · show (dequePush 1000 s.cvd_history (closeSnapshot st s)).length < 1000 →
        s.cumulative_cvd + s.current_candle_delta =
          ((dequePush 1000 s.cvd_history (closeSnapshot st s)).map (fun r => r.delta)).sum
      rw [heq]
      intro hlen2
      simp only [List.length_append, List.length_cons, List.length_nil] at hlen2
      have hold := h.no_evict (by omega)
      simp [closeSnapshot, hold]
    · show (dequePush 1000 s.cvd_history (closeSnapshot st s)).length < 1000 →
        ∀ r ∈ (dequePush 1000 s.cvd_history (closeSnapshot st s)).head?,
          r.cumulative_cvd = r.delta
      rw [heq]
      intro hlen2 r hr
      simp only [List.length_append, List.length_cons, List.length_nil] at hlen2
      cases hh : s.cvd_history with
      | nil =>
          rw [hh] at hr
          simp only [List.nil_append, List.head?_cons, Option.mem_def,
            Option.some.injEq] at hr
          subst hr
          have hcum0 := h.no_evict (by omega)
          rw [hh] at hcum0
          simp only [List.map_nil, List.sum_nil] at hcum0
          simp [closeSnapshot, hcum0]
      | cons hd tl =>
          rw [hh] at hr
          simp only [List.cons_append, List.head?_cons, Option.mem_def,
            Option.some.injEq] at hr
          subst hr
          have hold := h.head_cum (by rw [hh] at hlt ⊢; exact hlt)
          apply hold
          rw [hh]
          simp
  · refine ⟨h.cur_delta, h.cur_total, h.delta_sync, ?_, ?_, ?_, ?_, ?_⟩
    · show List.Chain' cumStep (dequePush 1000 s.cvd_history (closeSnapshot st s))
      rw [heq]
      exact hchain2.tail
    · show ∀ r ∈ (dequePush 1000 s.cvd_history (closeSnapshot st s)).getLast?,
        r.cumulative_cvd = s.cumulative_cvd + s.current_candle_delta
      rw [heq]
      cases hh : s.cvd_history with
      | nil => rw [hh] at hlen; simp at hlen
      | cons hd tl =>
          simp only [List.cons_append, List.tail_cons, List.getLast?_concat]
          intro r hr
          simp only [Option.mem_def, Option.some.injEq] at hr
          subst hr
          rfl
    · show (dequePush 1000 s.cvd_history (closeSnapshot st s)).length ≤ 1000
      rw [heq, List.length_tail]
      simp only [List.length_append, List.length_cons, List.length_nil]
      omega
    · show (dequePush 1000 s.cvd_history (closeSnapshot st s)).length < 1000 →
        s.cumulative_cvd + s.current_candle_delta =
          ((dequePush 1000 s.cvd_history (closeSnapshot st s)).map (fun r => r.delta)).sum
      rw [heq, List.length_tail]
      simp only [List.length_append, List.length_cons, List.length_nil]
      intro hlen2
      omega
    · show (dequePush 1000 s.cvd_history (closeSnapshot st s)).length < 1000 →
        ∀ r ∈ (dequePush 1000 s.cvd_history (closeSnapshot st s)).head?,
          r.cumulative_cvd = r.delta
      rw [heq, List.length_tail]
      simp only [List.length_append, List.length_cons, List.length_nil]
      intro hlen2
      omega

theorem CVDInv_close (lb : ℕ) (s : CVDState) (h : CVDInv s) :
    CVDInv (close_current_candle lb s) := by
  unfold close_current_candle
  split
  · exact h
  · exact CVDInv_update_pivot lb _ (CVDInv_append _ s h)

theorem CVDInv_initialize (m c : ℕ) (s : CVDState) (h : CVDInv s) :
    CVDInv (initialize_new_candle m c s) := by
  refine ⟨?_, ?_, ?_, h.chain, h.last_cum, h.len_le, h.no_evict, h.head_cum⟩ <;>
    simp [initialize_new_candle]

theorem CVDInv_maybe_close (lb cst : ℕ) (s : CVDState) (h : CVDInv s) :
    CVDInv (maybe_close_candle lb cst s) := by
  unfold maybe_close_candle
  split
  · split
    · exact CVDInv_close lb s h
    · exact h
  · exact h

theorem CVDInv_bucket_init (m cst : ℕ) (s : CVDState) (h : CVDInv s) :
    CVDInv (bucket_init m cst s) := by
  unfold bucket_init
  split
  · exact h
  · exact CVDInv_initialize m cst s h

theorem CVDInv_counters (q : ℚ) (bm : Bool) (s : CVDState) (h : CVDInv s) :
    CVDInv (apply_trade_counters q bm s) := by
  cases bm with
  | true =>
      refine ⟨?_, ?_, ?_, h.chain, h.last_cum, h.len_le, h.no_evict, h.head_cum⟩ <;>
        simp only [apply_trade_counters, if_pos]
      · show s.current_candle_data.delta - q =
          s.current_candle_data.buy_volume - (s.current_candle_data.sell_volume + q)
        rw [h.cur_delta]; ring
      · show s.current_candle_data.total_volume + q =
          s.current_candle_data.buy_volume + (s.current_candle_data.sell_volume + q)
        rw [h.cur_total]; ring
      · show s.current_candle_delta + -q = s.current_candle_data.delta - q
        rw [h.delta_sync]; ring
  | false =>
      refine ⟨?_, ?_, ?_, h.chain, h.last_cum, h.len_le, h.no_evict, h.head_cum⟩ <;>
        simp only [apply_trade_counters, if_neg]
      · show s.current_candle_data.delta + q =
          s.current_candle_data.buy_volume + q - s.current_candle_data.sell_volume
        rw [h.cur_delta]; ring
      · show s.current_candle_data.total_volume + q =
          s.current_candle_data.buy_volume + q + s.current_candle_data.sell_volume
        rw [h.cur_total]; ring
      · show s.current_candle_delta + q = s.current_candle_data.delta + q
        rw [h.delta_sync]

theorem CVDInv_process_trade (m lb ts : ℕ) (q : ℚ) (bm : Bool) (s : CVDState)
    (h : CVDInv s) : CVDInv (process_trade_valid m lb ts q bm s) :=
  CVDInv_counters q bm _
    (CVDInv_bucket_init m _ _ (CVDInv_maybe_close lb _ s h))

theorem CVDInv_initState : CVDInv initCVDState := by
  refine ⟨?_, ?_, ?_, ?_, ?_, ?_, ?_, ?_⟩ <;> simp [initCVDState]

theorem CVDInv_apply_trades (m lb : ℕ) (trades : List (ℕ × ℚ × Bool)) :
    CVDInv (apply_trades m lb trades) := by
  unfold apply_trades
  have key : ∀ (l : List (ℕ × ℚ × Bool)) (s : CVDState), CVDInv s →
      CVDInv (l.foldl (fun s t => process_trade_valid m lb t.1 t.2.1 t.2.2 s) s) := by
    intro l
    induction l with
    | nil => intro s hs; exact hs
    | cons t l ih =>
        intro s hs
        exact ih _ (CVDInv_process_trade m lb t.1 t.2.1 t.2.2 s hs)
  exact key trades initCVDState CVDInv_initState

/-- C6: after any sequence of well-formed `process_trade` calls from the
reset state, the current candle satisfies `delta = buy_volume − sell_volume`
and `total_volume = buy_volume + sell_volume`, every pair of consecutive
closed candles in the history satisfies
`cumulative_cvd_n = cumulative_cvd_{n−1} + delta_n`, and as long as no
eviction has happened (fewer than 1000 closed candles) the oldest record
satisfies `cumulative_cvd_0 = delta_0`. -/
theorem cvd_invariants (m lb : ℕ) (trades : List (ℕ × ℚ × Bool)) :
    ((apply_trades m lb trades).current_candle_data.delta =
        (apply_trades m lb trades).current_candle_data.buy_volume -
          (apply_trades m lb trades).current_candle_data.sell_volume ∧
      (apply_trades m lb trades).current_candle_data.total_volume =
        (apply_trades m lb trades).current_candle_data.buy_volume +
          (apply_trades m lb trades).current_candle_data.sell_volume) ∧
    List.Chain' cumStep (apply_trades m lb trades).cvd_history ∧
    ((apply_trades m lb trades).cvd_history.length < 1000 →
      ∀ r ∈ (apply_trades m lb trades).cvd_history.head?,
        r.cumulative_cvd = r.delta) := by
  have h := CVDInv_apply_trades m lb trades
  exact ⟨⟨h.cur_delta, h.cur_total⟩, h.chain, h.head_cum⟩

/-- C6 witness: two trades in distinct one-minute candles; the single closed
candle's cumulative CVD equals its delta, as the theorem's head clause
asserts at this concrete input. -/
theorem cvd_invariants_witness :
    (apply_trades 1 10 [(0, 5, false), (60000, 3, true)]).cvd_history.length < 1000 ∧
    ∀ r ∈ (apply_trades 1 10 [(0, 5, false), (60000, 3, true)]).cvd_history.head?,
      r.cumulative_cvd = r.delta := by
  have h := cvd_invariants 1 10 [(0, 5, false), (60000, 3, true)]
  exact ⟨by decide, h.2.2 (by decide)⟩

/-! ### Risk Engine (`src/core/risk_manager.py`) -/

/-- Modelled from the spec: `calculate_position_size` from `utils/helpers.py`
is not under `src/`; the spec (§4.4) defines the raw position size as
`(account_balance × risk_per_trade) / |entry_price − stop_loss|`. -/
def calculate_position_size (account_balance risk_per_trade entry_price stop_loss : ℚ) : ℚ :=
  account_balance * risk_per_trade / |entry_price - stop_loss|

/-- `RiskManager._get_min_position_size`: a hard-coded exchange floor. -/
def get_min_position_size : ℚ := 1 / 1000

/-- `RiskManager._get_max_position_size`: half the account balance divided by
the current price, or float infinity (`none`) for a non-positive price. -/
def get_max_position_size (account_balance current_price : ℚ) : Option ℚ :=
  if 0 < current_price then some (account_balance * (1 / 2) / current_price)
  else none

/-- `RiskManager._calculate_position_size`: the raw risk-based size clamped
by `max(min_size, min(size, max_size))`; a `none` maximum (the float
infinity of the source) leaves the upper side unclamped. -/
def calculate_position_size_clamped (risk_per_trade account_balance entry_price
    stop_loss current_price : ℚ) : ℚ :=
  match get_max_position_size account_balance current_price with
  | some mx => max get_min_position_size
      (min (calculate_position_size account_balance risk_per_trade entry_price stop_loss) mx)
  | none => max get_min_position_size
      (calculate_position_size account_balance risk_per_trade entry_price stop_loss)

/-- A tracked position: the dict stored in `active_positions` and
`trade_history`.  Slots that the source only adds later are `Option`s
(`realized_pnl` defaults to 0 before closing). -/
structure Position where
  symbol : String
  side : String
  position_size : ℚ
  entry_price : ℚ
  stop_loss : ℚ
  take_profit : ℚ
  risk_amount : ℚ
  reward_amount : ℚ
  account_balance : ℚ
  signal_confidence : ℕ
  status : String
  open_time : Option ℕ
  unrealized_pnl : ℚ
  current_price : Option ℚ
  last_update : Option ℕ
  exit_price : Option ℚ
  realized_pnl : ℚ
  close_time : Option ℕ
  close_reason : Option String
deriving DecidableEq

/-- The Risk Engine's mutable position-tracking state. -/
structure RiskState where
  active_positions : List (String × Position)
  trade_history : List Position
deriving DecidableEq

/-- The state set up by `RiskManager.__init__`. -/
def initRiskState : RiskState :=
  { active_positions := [], trade_history := [] }

/-- Number of tracked positions whose status is `'active'`
(`RiskManager._can_open_position`, line 118). -/
def activeCount (s : RiskState) : ℕ :=
  (s.active_positions.filter (fun x => decide (x.2.status = "active"))).length

/-- Number of active tracked positions for one symbol. -/
def activeCountFor (sym : String) (s : RiskState) : ℕ :=
  (s.active_positions.filter
    (fun x => decide (x.2.status = "active" ∧ x.2.symbol = sym))).length

/-- `RiskManager._can_open_position`: refuse when the exchange reports a
nonzero live position for the symbol, or when the active tracked count has
reached `max_positions`. -/
def can_open_position (exchange_position_amount : ℚ) (max_positions : ℕ)
    (s : RiskState) : Bool :=
  if 0 < |exchange_position_amount| then false
  else decide (activeCount s < max_positions)

/-- `RiskManager.register_position`: store the params under `position_id`
with status `'active'`, a fresh open time and zero unrealized PnL.  A dict
assignment overwrites any entry with the same id. -/
def register_position (now : ℕ) (position_id : String) (params : Position)
    (s : RiskState) : RiskState :=
  { s with active_positions :=
      (s.active_positions.filter (fun x => decide (¬x.1 = position_id))) ++
        [(position_id,
          { params with status := "active", open_time := some now, unrealized_pnl := 0 })] }

/-- `RiskManager.close_position`: compute the realized PnL with the
side-dependent formula, append the closed record to the trade history and
remove the position from the active set; unknown ids are a no-op. -/
def close_position (now : ℕ) (position_id reason : String) (exit_price : ℚ)
    (s : RiskState) : RiskState :=
  match s.active_positions.find? (fun x => decide (x.1 = position_id)) with
  | none => s
  | some (_, p) =>
      { s with
        active_positions :=
          s.active_positions.filter (fun x => decide (¬x.1 = position_id))
        trade_history := s.trade_history ++
          [{ p with
              status := "closed"
              exit_price := some exit_price
              realized_pnl :=
                if p.side = "BUY" then (exit_price - p.entry_price) * p.position_size
                else (p.entry_price - exit_price) * p.position_size
              close_time := some now
              close_reason := some reason }] }

/-- The in-place refresh `RiskManager.update_position_pnl` applies to one
position: side-dependent unrealized PnL, last seen price, update stamp. -/
def update_pnl_position (current_price : ℚ) (now : ℕ) (p : Position) : Position :=
  { p with
    unrealized_pnl :=
      if p.side = "BUY" then (current_price - p.entry_price) * p.position_size
      else (p.entry_price - current_price) * p.position_size
    current_price := some current_price
    last_update := some now }

/-- `RiskManager.update_position_pnl` at state level (no-op on unknown ids). -/
def update_position_pnl (price : String → ℚ) (now : ℕ) (position_id : String)
    (s : RiskState) : RiskState :=
  { s with active_positions := s.active_positions.map (fun x =>
      if x.1 = position_id then (x.1, update_pnl_position (price x.2.symbol) now x.2)
      else x) }

/-- The metrics dict built by `RiskManager.get_risk_metrics`
(configuration echo entries omitted). -/
structure RiskMetrics where
  account_balance : ℚ
  active_positions : ℕ
  total_unrealized_pnl : ℚ
  total_realized_pnl : ℚ
  total_trades : ℕ
  win_rate : ℚ
  avg_win : ℚ
  avg_loss : ℚ
  profit_factor : ℚ
deriving DecidableEq

/-- The local `realized_pnls` list of `get_risk_metrics`. -/
def realized_pnls (s : RiskState) : List ℚ :=
  s.trade_history.map (fun p => p.realized_pnl)

/-- The winning realized PnLs (`pnl > 0`). -/
def winning_pnls (s : RiskState) : List ℚ :=
  (realized_pnls s).filter (fun q => decide (0 < q))

/-- The losing realized PnLs (`pnl < 0`). -/
def losing_pnls (s : RiskState) : List ℚ :=
  (realized_pnls s).filter (fun q => decide (q < 0))

/-- The local `win_rate` of `get_risk_metrics` (before the `× 100`). -/
def win_rate_of (s : RiskState) : ℚ :=
  if s.trade_history.isEmpty then 0
  else ((winning_pnls s).length : ℚ) / ((realized_pnls s).length : ℚ)

/-- The local `avg_win` of `get_risk_metrics`. -/
def avg_win_of (s : RiskState) : ℚ :=
  if s.trade_history.isEmpty then 0
  else if 0 < (winning_pnls s).length then
    (winning_pnls s).sum / ((winning_pnls s).length : ℚ)
  else 0

/-- The local `avg_loss` of `get_risk_metrics`. -/
def avg_loss_of (s : RiskState) : ℚ :=
  if s.trade_history.isEmpty then 0
  else if 0 < (losing_pnls s).length then
    (losing_pnls s).sum / ((losing_pnls s).length : ℚ)
  else 0

/-- `RiskManager.get_risk_metrics`: refresh every active position's PnL in
place via `update_position_pnl`, sum the refreshed unrealized PnLs, then
compute trade statistics from the realized PnLs of the history.  Returns the
metrics and the post-call state. -/
def get_risk_metrics (balance : ℚ) (price : String → ℚ) (now : ℕ) (s : RiskState) :
    RiskMetrics × RiskState :=
  ({ account_balance := balance
     active_positions := s.active_positions.length
     total_unrealized_pnl :=
       ((s.active_positions.map
          (fun x => update_pnl_position (price x.2.symbol) now x.2)).map
            (fun p => p.unrealized_pnl)).sum
     total_realized_pnl :=
       if s.trade_history.isEmpty then 0 else (realized_pnls s).sum
     total_trades := s.trade_history.length
     win_rate := win_rate_of s * 100
     avg_win := avg_win_of s
     avg_loss := avg_loss_of s
     profit_factor :=
       if avg_loss_of s ≠ 0 then |avg_win_of s / avg_loss_of s| else 0 },
   { s with active_positions := s.active_positions.map (fun x =>
       (x.1, update_pnl_position (price x.2.symbol) now x.2)) })

/-- `RiskManager.check_stop_loss_take_profit` reduced to its decision on one
position's side, levels and the current price. -/
def check_sl_tp_decision (side : String) (stop_loss take_profit current_price : ℚ) :
    Option String :=
  if side = "BUY" then
    if current_price ≤ stop_loss then some "stop_loss"
    else if current_price ≥ take_profit then some "take_profit"
    else none
  else
    if current_price ≥ stop_loss then some "stop_loss"
    else if current_price ≤ take_profit then some "take_profit"
    else none

/-- Monitoring a price sequence: the first SL/TP trigger, with the price at
which it fires. -/
def first_close_reason (side : String) (stop_loss take_profit : ℚ)
    (prices : List ℚ) : Option (ℚ × String) :=
  prices.findSome? fun p =>
    (check_sl_tp_decision side stop_loss take_profit p).map (fun r => (p, r))

/-! ### Theorems for C1 (position sizing) -/

/-- C1 as amended: the final size is `max(min_floor, min(raw, max_size))`
with `raw = balance·risk/|entry−stop|` and `max_size = balance/2/price`; it
never exceeds `max_size` provided the hard exchange floor does not itself
exceed `max_size`; and the spec's example (balance 10000, risk 1%, entry 100,
stop 98) sizes to exactly 50. -/
theorem position_sizing (balance risk entry stop price : ℚ) (hp : 0 < price)
    (hfloor : get_min_position_size ≤ balance * (1 / 2) / price) :
    calculate_position_size_clamped risk balance entry stop price =
      max get_min_position_size
        (min (calculate_position_size balance risk entry stop)
          (balance * (1 / 2) / price)) ∧
    calculate_position_size_clamped risk balance entry stop price ≤
      balance * (1 / 2) / price ∧
    calculate_position_size_clamped (1 / 100) 10000 100 98 100 = 50 := by
  have hmax : get_max_position_size balance price =
      some (balance * (1 / 2) / price) := by
    unfold get_max_position_size
    rw [if_pos hp]
  have heq : calculate_position_size_clamped risk balance entry stop price =
      max get_min_position_size
        (min (calculate_position_size balance risk entry stop)
          (balance * (1 / 2) / price)) := by
    unfold calculate_position_size_clamped
    rw [hmax]
  refine ⟨heq, ?_, ?_⟩
  · rw [heq]
    exact max_le hfloor (min_le_right _ _)
  · have hm : get_max_position_size 10000 100 = some 50 := by
      simp only [get_max_position_size, if_pos (show (0 : ℚ) < 100 by norm_num)]
      norm_num
    have hraw : calculate_position_size 10000 (1 / 100) 100 98 = 50 := by
      unfold calculate_position_size
      rw [show |(100 : ℚ) - 98| = 2 by norm_num]
      norm_num
    unfold calculate_position_size_clamped
    rw [hm, hraw]
    show max get_min_position_size (min (50 : ℚ) 50) = 50
    rw [min_self]
    unfold get_min_position_size
    rw [max_eq_right (by norm_num)]

/-- C1 witness: at balance 10000, 1% risk, entry 100, stop 98, price 100 the
hypotheses hold and the clamped size is at most the cap 50. -/
theorem position_sizing_witness :
    calculate_position_size_clamped (1 / 100) 10000 100 98 100 ≤
      10000 * (1 / 2) / 100 :=
  (position_sizing 10000 (1 / 100) 100 98 100 (by norm_num)
    (by unfold get_min_position_size; norm_num)).2.1

/-- C1 counterexample: with balance 0.01, entry = price = 100, stop 98 the
cap is `0.01/2/100 = 1/20000` but the hard floor 0.001 wins the clamp, so the
final size strictly exceeds `max_position_size` — the claim's "never exceeds
max_position_size" is false. -/
theorem position_sizing_cap_counterexample :
    calculate_position_size_clamped (1 / 100) (1 / 100) 100 98 100 = 1 / 1000 ∧
    get_max_position_size (1 / 100) 100 = some (1 / 20000) ∧
    ¬((1 / 1000 : ℚ) ≤ 1 / 20000) := by
  have hm : get_max_position_size (1 / 100) 100 = some (1 / 20000) := by
    simp only [get_max_position_size, if_pos (show (0 : ℚ) < 100 by norm_num)]
    norm_num
  have hraw : calculate_position_size (1 / 100) (1 / 100) 100 98 = 1 / 20000 := by
    unfold calculate_position_size
    rw [show |(100 : ℚ) - 98| = 2 by norm_num]
    norm_num
  refine ⟨?_, hm, by norm_num⟩
  unfold calculate_position_size_clamped
  rw [hm, hraw]
  show max get_min_position_size (min (1 / 20000 : ℚ) (1 / 20000)) = 1 / 1000
  rw [min_self]
  unfold get_min_position_size
  rw [max_eq_left (by norm_num)]

/-! ### Theorems for C7 (stop-loss / take-profit breach) -/

theorem check_buy_reduce (stop target p : ℚ) :
    check_sl_tp_decision "BUY" stop target p =
      (if p ≤ stop then some "stop_loss"
       else if target ≤ p then some "take_profit" else none) := rfl

theorem check_sell_reduce (stop target p : ℚ) :
    check_sl_tp_decision "SELL" stop target p =
      (if stop ≤ p then some "stop_loss"
       else if p ≤ target then some "take_profit" else none) := rfl

theorem sl_ne_tp : ("stop_loss" : String) ≠ "take_profit" := by decide

theorem tp_ne_sl : ("take_profit" : String) ≠ "stop_loss" := by decide

/-- C7: for an active long (stop below target, as validation orders them)
the check returns `stop_loss` iff price ≤ stop, `take_profit` iff
price ≥ target, and nothing strictly in between; for a short the
inequalities are mirrored; and monitoring the long stop=98/target=106 over
prices 101, 99, 97 fires `stop_loss` at 97, the first price ≤ 98. -/
theorem sl_tp_breach_characterization :
    (∀ stop target p : ℚ, stop < target →
      ((check_sl_tp_decision "BUY" stop target p = some "stop_loss" ↔ p ≤ stop) ∧
        (check_sl_tp_decision "BUY" stop target p = some "take_profit" ↔ target ≤ p) ∧
        (check_sl_tp_decision "BUY" stop target p = none ↔ stop < p ∧ p < target))) ∧
    (∀ stop target p : ℚ, target < stop →
      ((check_sl_tp_decision "SELL" stop target p = some "stop_loss" ↔ stop ≤ p) ∧
        (check_sl_tp_decision "SELL" stop target p = some "take_profit" ↔ p ≤ target) ∧
        (check_sl_tp_decision "SELL" stop target p = none ↔ target < p ∧ p < stop))) ∧
    first_close_reason "BUY" 98 106 [101, 99, 97] = some (97, "stop_loss") := by
  refine ⟨?_, ?_, ?_⟩
  · intro stop target p hst
    rw [check_buy_reduce]
    rcases le_or_lt p stop with h1 | h1
    · have h2 : p < target := lt_of_le_of_lt h1 hst
      refine ⟨?_, ?_, ?_⟩ <;> simp [h1, sl_ne_tp, h2.not_le, h1.not_lt]
    · rcases le_or_lt target p with h2 | h2
      · refine ⟨?_, ?_, ?_⟩ <;> simp [h1.not_le, h2, tp_ne_sl, h2.not_lt]
      · refine ⟨?_, ?_, ?_⟩ <;> simp [h1.not_le, h2.not_le, h1, h2]
  · intro stop target p hst
    rw [check_sell_reduce]
    rcases le_or_lt stop p with h1 | h1
    · have h2 : target < p := lt_of_lt_of_le hst h1
      refine ⟨?_, ?_, ?_⟩ <;> simp [h1, sl_ne_tp, h2.not_le, h1.not_lt]
    · rcases le_or_lt p target with h2 | h2
      · refine ⟨?_, ?_, ?_⟩ <;> simp [h1.not_le, h2, tp_ne_sl, h2.not_lt]
      · refine ⟨?_, ?_, ?_⟩ <;> simp [h1.not_le, h2.not_le, h1, h2]
  · rfl

/-- C7 witness: the theorem applied to the long position with stop 98 and
target 106 at price 97. -/
theorem sl_tp_breach_witness :
    check_sl_tp_decision "BUY" 98 106 97 = some "stop_loss" :=
  ((sl_tp_breach_characterization.1 98 106 97 (by norm_num)).1).mpr (by norm_num)

/-! ### Theorems for C2 (active-position invariants) -/

/-- One public Risk Engine operation on the tracking state.  In the source,
`calculate_position_parameters` and `validate_position` never modify
`active_positions` or `trade_history`; the state changes are `register`,
`close` and the PnL refresh.  Registration is taken here with a passing
`_can_open_position` guard (the check `calculate_position_parameters` runs
before handing out parameters), which is the amendment the unguarded
counterexample forces. -/
inductive RiskStepG (maxp : ℕ) : RiskState → RiskState → Prop
  | register (s : RiskState) (amt : ℚ) (now : ℕ) (pid : String) (params : Position)
      (hguard : can_open_position amt maxp s = true) :
      RiskStepG maxp s (register_position now pid params s)
  | close (s : RiskState) (now : ℕ) (pid reason : String) (exit_price : ℚ) :
      RiskStepG maxp s (close_position now pid reason exit_price s)
  | update (s : RiskState) (price : String → ℚ) (now : ℕ) (pid : String) :
      RiskStepG maxp s (update_position_pnl price now pid s)

/-- States reachable from the fresh Risk Engine by guarded operations. -/
inductive RiskReachG (maxp : ℕ) : RiskState → Prop
  | init : RiskReachG maxp initRiskState
  | step {s t : RiskState} : RiskReachG maxp s → RiskStepG maxp s t → RiskReachG maxp t

theorem length_filter_filter_le {α : Type} (p q : α → Bool) (l : List α) :
    ((l.filter q).filter p).length ≤ (l.filter p).length :=
  (List.Sublist.filter p (List.filter_sublist l)).length_le

theorem length_filter_le_of_imp {α : Type} (p q : α → Bool) (l : List α)
    (himp : ∀ a, p a = true → q a = true) :
    (l.filter p).length ≤ (l.filter q).length := by
  induction l with
  | nil => simp
  | cons a t ih =>
      by_cases hp : p a = true
      · rw [List.filter_cons_of_pos hp, List.filter_cons_of_pos (himp a hp)]
        simpa using ih
      · rw [List.filter_cons_of_neg (by simpa using hp)]
        by_cases hq : q a = true
        · rw [List.filter_cons_of_pos hq]
          simp only [List.length_cons]
          exact le_trans ih (Nat.le_succ _)
        · rw [List.filter_cons_of_neg (by simpa using hq)]
          exact ih

theorem length_filter_singleton_le {α : Type} (p : α → Bool) (y : α) :
    ([y].filter p).length ≤ 1 := by
  by_cases hy : p y = true <;> simp [hy]

theorem activeCount_register_le (now : ℕ) (pid : String) (params : Position)
    (s : RiskState) :
    activeCount (register_position now pid params s) ≤ activeCount s + 1 := by
  unfold activeCount register_position
  rw [List.filter_append, List.length_append]
  exact Nat.add_le_add
    (length_filter_filter_le _ _ s.active_positions)
    (length_filter_singleton_le _ _)

theorem activeCount_close_le (now : ℕ) (pid reason : String) (exit_price : ℚ)
    (s : RiskState) :
    activeCount (close_position now pid reason exit_price s) ≤ activeCount s := by
  unfold close_position
  split
  · exact le_rfl
  · exact length_filter_filter_le _ _ s.active_positions

theorem activeCount_update_eq (price : String → ℚ) (now : ℕ) (pid : String)
    (s : RiskState) :
    activeCount (update_position_pnl price now pid s) = activeCount s := by
  unfold activeCount update_position_pnl
  rw [List.filter_map, List.length_map]
  congr 1
  apply List.filter_congr
  intro x _
  by_cases hx : x.1 = pid <;> simp [hx, update_pnl_position, Function.comp]

/-- C2 as amended: as long as every `register_position` happens in a state
where `_can_open_position` passed (as in the `calculate_position_parameters`
flow), the count of active tracked positions never exceeds `max_positions`;
with the default `max_positions = 1` this also gives at most one active
position per symbol. -/
theorem risk_guarded_invariant (maxp : ℕ) (s : RiskState) (h : RiskReachG maxp s) :
    activeCount s ≤ maxp ∧ (maxp = 1 → ∀ sym, activeCountFor sym s ≤ 1) := by
  have hfor : ∀ (t : RiskState) (sym : String), activeCountFor sym t ≤ activeCount t := by
    intro t sym
    unfold activeCountFor activeCount
    apply length_filter_le_of_imp
    intro a ha
    simp only [decide_eq_true_eq] at ha ⊢
    exact ha.1
  have main : activeCount s ≤ maxp := by
    induction h with
    | init => simp [activeCount, initRiskState]
    | step hr hstep ih =>
        rename_i s0 t0
        cases hstep with
        | register amt now pid params hguard =>
            have hcnt : activeCount s0 < maxp := by
              unfold can_open_position at hguard
              by_cases habs : 0 < |amt|
              · rw [if_pos habs] at hguard
                exact absurd hguard (by simp)
              · rw [if_neg habs] at hguard
                exact of_decide_eq_true hguard
            have := activeCount_register_le now pid params s0
            omega
        | close now pid reason exit_price =>
            exact le_trans (activeCount_close_le now pid reason exit_price s0) ih
        | update price now pid =>
            rw [activeCount_update_eq]
            exact ih
  refine ⟨main, ?_⟩
  intro h1 sym
  calc activeCountFor sym s ≤ activeCount s := hfor s sym
    _ ≤ 1 := h1 ▸ main

/-- Position parameters used in concrete Risk Engine scenarios. -/
def demoParams : Position :=
  { symbol := "BTCUSDT", side := "BUY", position_size := 1, entry_price := 100
    stop_loss := 98, take_profit := 106, risk_amount := 100, reward_amount := 200
    account_balance := 10000, signal_confidence := 70, status := "active"
    open_time := none, unrealized_pnl := 0, current_price := none, last_update := none
    exit_price := none, realized_pnl := 0, close_time := none, close_reason := none }

/-- C2 counterexample: `register_position` inserts unconditionally, so the
sequence register("pos1"), register("pos2") — both public operations — puts
two active positions on the same symbol, violating both invariants for the
default `max_positions = 1`. -/
theorem register_twice_breaks_invariant :
    activeCount (register_position 1 "pos2" demoParams
      (register_position 0 "pos1" demoParams initRiskState)) = 2 ∧
    activeCountFor "BTCUSDT" (register_position 1 "pos2" demoParams
      (register_position 0 "pos1" demoParams initRiskState)) = 2 ∧
    ¬(activeCount (register_position 1 "pos2" demoParams
      (register_position 0 "pos1" demoParams initRiskState)) ≤ 1) := by
  have h2 : activeCount (register_position 1 "pos2" demoParams
      (register_position 0 "pos1" demoParams initRiskState)) = 2 := rfl
  refine ⟨h2, rfl, ?_⟩
  rw [h2]
  omega

/-- C2 witness: one guarded registration from the fresh state respects the
invariant for `max_positions = 1`. -/
theorem risk_guarded_invariant_witness :
    activeCount (register_position 0 "pos1" demoParams initRiskState) ≤ 1 :=
  (risk_guarded_invariant 1 _
    (RiskReachG.step RiskReachG.init
      (RiskStepG.register initRiskState 0 0 "pos1" demoParams rfl))).1

/-! ### Theorems for C9 (risk metrics) -/

theorem list_sum_neg_of_all_neg (l : List ℚ) (h0 : ∀ x ∈ l, x < 0) (hne : l ≠ []) :
    l.sum < 0 := by
  induction l with
  | nil => exact absurd rfl hne
  | cons a t ih =>
      simp only [List.sum_cons]
      rcases eq_or_ne t [] with rfl | ht
      · simpa using h0 a (by simp)
      · have hs := ih (fun x hx => h0 x (List.mem_cons_of_mem a hx)) ht
        have ha := h0 a (by simp)
        linarith

/-- C9 as amended: `get_risk_metrics` computes the trade statistics by
scanning the trade history and the active set — total trades, win rate,
average win/loss, and profit factor `|avg_win/avg_loss|` with 0 when there
are no losing trades; it leaves the trade history and the set of tracked
position ids unchanged, but it does mutate engine state: every active
position's unrealized PnL, last seen price and update stamp are refreshed in
place via `update_position_pnl`. -/
theorem risk_metrics_effects (balance : ℚ) (price : String → ℚ) (now : ℕ)
    (s : RiskState) :
    ((get_risk_metrics balance price now s).2.trade_history = s.trade_history) ∧
    ((get_risk_metrics balance price now s).2.active_positions.map Prod.fst =
      s.active_positions.map Prod.fst) ∧
    ((get_risk_metrics balance price now s).2.active_positions =
      s.active_positions.map
        (fun x => (x.1, update_pnl_position (price x.2.symbol) now x.2))) ∧
    ((get_risk_metrics balance price now s).1.total_trades = s.trade_history.length) ∧
    ((get_risk_metrics balance price now s).1.win_rate = win_rate_of s * 100) ∧
    ((get_risk_metrics balance price now s).1.avg_win = avg_win_of s) ∧
    ((get_risk_metrics balance price now s).1.avg_loss = avg_loss_of s) ∧
    ((get_risk_metrics balance price now s).1.profit_factor =
      if (losing_pnls s).length = 0 then 0 else |avg_win_of s / avg_loss_of s|) := by
  refine ⟨rfl, ?_, rfl, rfl, rfl, rfl, rfl, ?_⟩
  · show (s.active_positions.map
        (fun x => (x.1, update_pnl_position (price x.2.symbol) now x.2))).map Prod.fst =
      s.active_positions.map Prod.fst
    rw [List.map_map]
    rfl
  · show (if avg_loss_of s ≠ 0 then |avg_win_of s / avg_loss_of s| else 0) =
      if (losing_pnls s).length = 0 then 0 else |avg_win_of s / avg_loss_of s|
    by_cases hl : (losing_pnls s).length = 0
    · have hzero : avg_loss_of s = 0 := by
        unfold avg_loss_of
        by_cases hemp : s.trade_history.isEmpty
        · rw [if_pos hemp]
        · rw [if_neg hemp, if_neg (by omega)]
      rw [if_pos hl, hzero]
      simp
    · have hemp : ¬s.trade_history.isEmpty = true := by
        intro hx
        have : s.trade_history = [] := List.isEmpty_iff.mp hx
        apply hl
        unfold losing_pnls realized_pnls
        rw [this]
        rfl
      have hneg : avg_loss_of s < 0 := by
        unfold avg_loss_of
        rw [if_neg hemp, if_pos (by omega)]
        apply div_neg_of_neg_of_pos
        · apply list_sum_neg_of_all_neg
          · intro x hx
            unfold losing_pnls at hx
            have := List.of_mem_filter hx
            simpa using this
          · intro hx
            apply hl
            rw [hx]
            rfl
        · have : 0 < (losing_pnls s).length := by omega
          exact_mod_cast this
      rw [if_neg hl, if_pos (ne_of_lt hneg)]

/-- A state with one active long position (entry 100, size 1) whose stored
unrealized PnL is stale at 0. -/
def pnlDemoState : RiskState :=
  { active_positions := [("pos1", demoParams)], trade_history := [] }

/-- C9 counterexample: with the market at 110, `get_risk_metrics` rewrites
the tracked position (current price and PnL refresh), so the engine state
after the call differs from the state before — the claim's "without mutating
any Risk Engine state" is false. -/
theorem risk_metrics_mutates_state :
    (get_risk_metrics 10000 (fun _ => 110) 7 pnlDemoState).2 ≠ pnlDemoState := by
  intro heq
  have h1 : (get_risk_metrics 10000 (fun _ => 110) 7
      pnlDemoState).2.active_positions.head?.map (fun x => x.2.current_price) =
      some (some 110) := rfl
  rw [heq] at h1
  simp [pnlDemoState, demoParams] at h1

/-! ### Signal Evaluator (`src/core/signal_detector.py`) -/

/-- Modelled from the spec: `is_funding_rate_extreme` from `utils/helpers.py`
is not under `src/`; per the spec (§4.3), funding at or above the high
threshold is an extreme high, at or below the low threshold an extreme low. -/
def is_funding_rate_extreme (rate high_threshold low_threshold : ℚ) : String :=
  if rate ≥ high_threshold then "high"
  else if rate ≤ low_threshold then "low"
  else "none"

/-- The market inputs one signal evaluation reads: the detector's cached
price pivots, the CVD calculator state, the funding reads with their
thresholds, and the outcomes of the provider-dependent checks.
`funding_ok` / `oi_ok` model whether the data-provider calls succeed (their
except branches return not-extreme / not-rising); `confirm_bearish` and
`confirm_bullish` are the outcomes of `_check_price_confirmation` over the
cached candle window. -/
structure SignalEnv where
  price_pivots_high : List (ℕ × ℚ)
  price_pivots_low : List (ℕ × ℚ)
  cvd : CVDState
  funding_rate : ℚ
  high_funding_threshold : ℚ
  low_funding_threshold : ℚ
  funding_ok : Bool
  oi_ok : Bool
  confirm_bearish : Bool
  confirm_bullish : Bool

/-- `SignalDetector._check_funding_rate`: `extreme` is true exactly when the
requested direction matches the classified extreme; a failed provider call
reports not-extreme. -/
def check_funding_rate_extreme (env : SignalEnv) (direction : String) : Bool :=
  if env.funding_ok then
    (decide (direction = "high") &&
      decide (is_funding_rate_extreme env.funding_rate env.high_funding_threshold
        env.low_funding_threshold = "high")) ||
    (decide (direction = "low") &&
      decide (is_funding_rate_extreme env.funding_rate env.high_funding_threshold
        env.low_funding_threshold = "low"))
  else false

/-- `SignalDetector._check_open_interest_trend`, rising flank: the success
path always reports a rising trend (a placeholder in the source). -/
def check_oi_rising (env : SignalEnv) : Bool := env.oi_ok

/-- `SignalDetector._check_open_interest_trend`, falling flank: never true. -/
def check_oi_falling (_env : SignalEnv) : Bool := false

/-- `SignalDetector._check_price_higher_high` on the cached pivot highs. -/
def check_price_higher_high (pivots : List (ℕ × ℚ)) : Bool :=
  match last2 pivots with
  | some (a, b) => decide (a.2 < b.2)
  | none => false

/-- `SignalDetector._check_price_lower_low` on the cached pivot lows. -/
def check_price_lower_low (pivots : List (ℕ × ℚ)) : Bool :=
  match last2 pivots with
  | some (a, b) => decide (b.2 < a.2)
  | none => false

/-- The signal dict: type, validity, confidence, and the conditions recorded
up to the point the evaluation returned (early returns leave later
conditions unevaluated). -/
structure Signal where
  type : String
  valid : Bool
  confidence : ℕ
  conditions : List (String × Bool)
deriving DecidableEq

/-- The weighted sum over the bearish conditions that hold — the
`confidence_score` accumulation of `check_bearish_signal` (lines 161–171),
which is also the claim's reading of the confidence for every evaluation. -/
def bearish_condition_score (env : SignalEnv) : ℕ :=
  (if check_price_higher_high env.price_pivots_high then 25 else 0) +
  (if detect_cvd_divergence env.cvd env.price_pivots_high "bearish" then 35 else 0) +
  (if check_funding_rate_extreme env "high" then 20 else 0) +
  (if check_oi_rising env then 10 else 0) +
  (if env.confirm_bearish then 10 else 0)

/-- The weighted sum over the bullish conditions that hold
(`check_bullish_signal`, lines 276–286). -/
def bullish_condition_score (env : SignalEnv) : ℕ :=
  (if check_price_lower_low env.price_pivots_low then 25 else 0) +
  (if detect_cvd_divergence env.cvd env.price_pivots_low "bullish" then 35 else 0) +
  (if check_funding_rate_extreme env "low" then 20 else 0) +
  (if check_oi_falling env then 10 else 0) +
  (if env.confirm_bullish then 10 else 0)

/-- `SignalDetector.check_bearish_signal` (logging dropped; every market
read taken from `env`): gate on structure, then on divergence, then score. -/
def check_bearish_signal (env : SignalEnv) : Signal :=
  if check_price_higher_high env.price_pivots_high then
    if detect_cvd_divergence env.cvd env.price_pivots_high "bearish" then
      { type := "bearish"
        valid := check_price_higher_high env.price_pivots_high &&
          detect_cvd_divergence env.cvd env.price_pivots_high "bearish" &&
          decide (60 ≤ bearish_condition_score env)
        confidence := bearish_condition_score env
        conditions := [("price_higher_high", true), ("cvd_divergence", true),
          ("funding_rate_extreme", check_funding_rate_extreme env "high"),
          ("open_interest_rising", check_oi_rising env),
          ("confirmation", env.confirm_bearish)] }
    else
      { type := "bearish", valid := false, confidence := 0
        conditions := [("price_higher_high", true), ("cvd_divergence", false)] }
  else
    { type := "bearish", valid := false, confidence := 0
      conditions := [("price_higher_high", false)] }

/-- `SignalDetector.check_bullish_signal`, the mirror evaluation. -/
def check_bullish_signal (env : SignalEnv) : Signal :=
  if check_price_lower_low env.price_pivots_low then
    if detect_cvd_divergence env.cvd env.price_pivots_low "bullish" then
      { type := "bullish"
        valid := check_price_lower_low env.price_pivots_low &&
          detect_cvd_divergence env.cvd env.price_pivots_low "bullish" &&
          decide (60 ≤ bullish_condition_score env)
        confidence := bullish_condition_score env
        conditions := [("price_lower_low", true), ("cvd_divergence", true),
          ("funding_rate_extreme", check_funding_rate_extreme env "low"),
          ("open_interest_falling", check_oi_falling env),
          ("confirmation", env.confirm_bullish)] }
    else
      { type := "bullish", valid := false, confidence := 0
        conditions := [("price_lower_low", true), ("cvd_divergence", false)] }
  else
    { type := "bullish", valid := false, confidence := 0
      conditions := [("price_lower_low", false)] }

/-! ### Theorems for C3 (signal scoring and gating) -/

/-- C3 as amended: a failed structure gate returns the invalid signal with
confidence 0 and only the structure condition recorded; a failed divergence
gate (structure holding) also returns confidence 0 — not the weighted sum of
the held conditions; when both gates hold the confidence is exactly the
weighted sum (+25 structure, +35 divergence, +20 funding, +10 OI trend,
+10 confirmation over the conditions that hold) and validity is the
conjunction of the gates with score ≥ 60, which in that branch always holds
because the gates alone contribute 60.  Mirrored for the bullish check. -/
theorem signal_scoring (env : SignalEnv) :
    (check_price_higher_high env.price_pivots_high = false →
      check_bearish_signal env =
        { type := "bearish", valid := false, confidence := 0
          conditions := [("price_higher_high", false)] }) ∧
    (check_price_higher_high env.price_pivots_high = true →
      detect_cvd_divergence env.cvd env.price_pivots_high "bearish" = false →
      check_bearish_signal env =
        { type := "bearish", valid := false, confidence := 0
          conditions := [("price_higher_high", true), ("cvd_divergence", false)] }) ∧
    (check_price_higher_high env.price_pivots_high = true →
      detect_cvd_divergence env.cvd env.price_pivots_high "bearish" = true →
      (check_bearish_signal env).confidence = bearish_condition_score env ∧
      60 ≤ bearish_condition_score env ∧
      (check_bearish_signal env).valid = true) ∧
    (check_price_lower_low env.price_pivots_low = false →
      check_bullish_signal env =
        { type := "bullish", valid := false, confidence := 0
          conditions := [("price_lower_low", false)] }) ∧
    (check_price_lower_low env.price_pivots_low = true →
      detect_cvd_divergence env.cvd env.price_pivots_low "bullish" = false →
      check_bullish_signal env =
        { type := "bullish", valid := false, confidence := 0
          conditions := [("price_lower_low", true), ("cvd_divergence", false)] }) ∧
    (check_price_lower_low env.price_pivots_low = true →
      detect_cvd_divergence env.cvd env.price_pivots_low "bullish" = true →
      (check_bullish_signal env).confidence = bullish_condition_score env ∧
      60 ≤ bullish_condition_score env ∧
      (check_bullish_signal env).valid = true) := by
  refine ⟨?_, ?_, ?_, ?_, ?_, ?_⟩
  · intro h1
    unfold check_bearish_signal
    rw [h1]
    rfl
  · intro h1 h2
    unfold check_bearish_signal
    rw [h1, h2]
    rfl
  · intro h1 h2
    have hscore : 60 ≤ bearish_condition_score env := by
      unfold bearish_condition_score
      rw [h1, h2]
      simp only [if_true]
      omega
    refine ⟨?_, hscore, ?_⟩
    · unfold check_bearish_signal
      rw [h1, h2]
      rfl
    · unfold check_bearish_signal
      rw [h1, h2]
      simp [hscore]
  · intro h1
    unfold check_bullish_signal
    rw [h1]
    rfl
  · intro h1 h2
    unfold check_bullish_signal
    rw [h1, h2]
    rfl
  · intro h1 h2
    have hscore : 60 ≤ bullish_condition_score env := by
      unfold bullish_condition_score
      rw [h1, h2]
      simp only [if_true]
      omega
    refine ⟨?_, hscore, ?_⟩
    · unfold check_bullish_signal
      rw [h1, h2]
      rfl
    · unfold check_bullish_signal
      rw [h1, h2]
      simp [hscore]

/-- No higher high (pivot highs 100 → 95), provider reads healthy: the
structure gate fails. -/
def gateFailEnv : SignalEnv :=
  { price_pivots_high := [(1, 100), (2, 95)]
    price_pivots_low := []
    cvd := initCVDState
    funding_rate := 0, high_funding_threshold := 1, low_funding_threshold := -1
    funding_ok := true, oi_ok := true
    confirm_bearish := false, confirm_bullish := false }

/-- C3 witness: the spec's gating example — pivot highs `[100, 95]` give an
invalid bearish signal with confidence 0 and no further conditions
evaluated. -/
theorem signal_scoring_witness :
    check_bearish_signal gateFailEnv =
      { type := "bearish", valid := false, confidence := 0
        conditions := [("price_higher_high", false)] } :=
  (signal_scoring gateFailEnv).1 rfl

/-- Higher high (100 → 110) but no CVD pivots, so the divergence gate fails
while the structure condition and the (placeholder) rising-OI condition
hold. -/
def divergenceFailEnv : SignalEnv :=
  { price_pivots_high := [(1, 100), (2, 110)]
    price_pivots_low := []
    cvd := initCVDState
    funding_rate := 0, high_funding_threshold := 1, low_funding_threshold := -1
    funding_ok := true, oi_ok := true
    confirm_bearish := false, confirm_bullish := false }

/-- C3 counterexample: when the structure gate holds but the divergence gate
fails, the code returns confidence 0 although the weighted sum over the
conditions that hold is 35 (structure 25 + rising OI 10) — so the claim that
the returned confidence always equals that sum is false. -/
theorem signal_confidence_counterexample :
    (check_bearish_signal divergenceFailEnv).confidence = 0 ∧
    bearish_condition_score divergenceFailEnv = 35 := by
  constructor
  · rfl
  · rfl

end DoganStrateji
